import Mathlib

/-!
Verification of the hardware management system's event-sourced core.

The repository derives all current state (stock levels, account balances)
by aggregating append-only event records (StockMovement, LedgerEntry).
This development embeds the data model and the operations shallowly:

* Fixed-point decimals are embedded as scaled integers: stock quantities
  (DecimalField with decimal_places=3) are integers counting thousandths;
  money amounts (decimal_places=2) are integers counting cents.  Exact
  decimal arithmetic on such values is exact integer arithmetic.
* Database rows are structure values; a table is a list of rows; a
  foreign key is the referenced row's id (a Nat standing for the UUID).
* Django/DRF validation that rejects a request is an Except.error.
-/

namespace HMS

/-- Movement kinds of src/inventory/models.py (MOVEMENT_TYPE_CHOICES). -/
inductive MovementType
  | IN
  | OUT
  | ADJUSTMENT
  | TRANSFER_IN
  | TRANSFER_OUT
  | SALE
  | REFUND
deriving DecidableEq, Repr

/-- Reference kinds of src/inventory/models.py (REFERENCE_TYPE_CHOICES). -/
inductive ReferenceType
  | SALE
  | PURCHASE
  | MANUAL
deriving DecidableEq, Repr

/-- A StockMovement row (src/inventory/models.py).  `quantity` is the signed
stock delta in thousandths (DecimalField max_digits=15, decimal_places=3);
`reference_id` is nullable in the source model (null=True, blank=True), hence
an Option here.  UUIDs and timestamps are embedded as naturals. -/
structure StockMovement where
  id : Nat
  product : Nat
  warehouse : Nat
  movement_type : MovementType
  quantity : Int
  reference_type : ReferenceType
  reference_id : Option Nat
  created_by : Nat
  created_at : Nat
deriving DecidableEq, Repr

/-- Reference kinds of src/finance/models.py (REFERENCE_TYPE_CHOICES of
LedgerEntry: SALE, REFUND, ADJUSTMENT). -/
inductive LedgerReferenceType
  | SALE
  | REFUND
  | ADJUSTMENT
deriving DecidableEq, Repr

/-- A LedgerEntry row (src/finance/models.py).  `amount` is the signed money
delta in cents (DecimalField max_digits=15, decimal_places=2);
`reference_id` is NOT nullable in this model. -/
structure LedgerEntry where
  id : Nat
  account : Nat
  amount : Int
  reference_type : LedgerReferenceType
  reference_id : Nat
  created_at : Nat
deriving DecidableEq, Repr

/-- Does the movement belong to the (product, warehouse) pair? -/
def matchesPair (p w : Nat) (m : StockMovement) : Bool :=
  m.product == p && m.warehouse == w

/-- Modelled from the spec: the current-stock aggregate for a
(product, warehouse) pair — the sum of the pair's signed movement
quantities, zero when none exist (the currentStock contract of spec section
4.2; no working implementation exists under src).  The grouped
Sum('quantity') annotation in StockViewSet.list (src/inventory/views.py) is
meant to compute these values, but that view never executes (see
inventoryViewsImport and stockViewSetList below), and its SQL Sum over an
empty group would produce no row at all rather than a zero, so the
zero-if-none default here is the spec's answer, not the code's. -/
def currentStock (movs : List StockMovement) (p w : Nat) : Int :=
  ((movs.filter (matchesPair p w)).map (fun m => m.quantity)).sum

/-- Account balance: AccountSerializer.get_balance (src/finance/serializers.py)
computes sum(entry.amount for entry in obj.ledger_entries.all()); the
ledger_entries relation is the entries whose account FK is this account. -/
def get_balance (entries : List LedgerEntry) (a : Nat) : Int :=
  ((entries.filter (fun e => e.account == a)).map (fun e => e.amount)).sum

/-- A list sum of mapped integers equals the left fold that adds each
element's image in turn (the order Python's sum(...) accumulates in). -/
lemma sum_map_eq_foldl {α : Type} (f : α → Int) (l : List α) :
    (l.map f).sum = l.foldl (fun acc a => acc + f a) 0 := by
  rw [← List.foldl_map]
  exact List.sum_eq_foldl

/-- A concrete IN movement of +10.000 on product 1, warehouse 2. -/
def demoMov1 : StockMovement :=
  { id := 1, product := 1, warehouse := 2, movement_type := .IN, quantity := 10000,
    reference_type := .PURCHASE, reference_id := some 40, created_by := 9, created_at := 1 }

/-- A concrete SALE movement of -4.000 on product 1, warehouse 2. -/
def demoMov2 : StockMovement :=
  { id := 2, product := 1, warehouse := 2, movement_type := .SALE, quantity := -4000,
    reference_type := .SALE, reference_id := some 50, created_by := 9, created_at := 2 }

/-- C3: for every account, the computed balance equals the exact decimal sum
of the signed amounts of the account's ledger entries; it is invariant under
reordering of the entry list; and it is zero when no entry references the
account. -/
theorem get_balance_spec (a : Nat) (l l' : List LedgerEntry)
    (h : List.Perm l l') :
    get_balance l a
        = (l.filter (fun e => e.account == a)).foldl (fun acc e => acc + e.amount) 0
      ∧ get_balance l a = get_balance l' a
      ∧ ((∀ e ∈ l, (e.account == a) = false) → get_balance l a = 0) := by
  refine ⟨sum_map_eq_foldl _ _, ?_, ?_⟩
  · exact List.Perm.sum_eq (List.Perm.map _ (List.Perm.filter _ h))
  · intro hnone
    have hfilt : l.filter (fun e => e.account == a) = [] := by
      apply List.filter_eq_nil_iff.mpr
      intro e he
      simp [hnone e he]
    simp [get_balance, hfilt]

/-- A concrete ledger entry of +250.00 on account 7. -/
def demoEntry1 : LedgerEntry :=
  { id := 1, account := 7, amount := 25000, reference_type := .SALE,
    reference_id := 50, created_at := 3 }

/-- A concrete compensating ledger entry of -250.00 on account 7. -/
def demoEntry2 : LedgerEntry :=
  { id := 2, account := 7, amount := -25000, reference_type := .REFUND,
    reference_id := 50, created_at := 4 }

/-- Witness for C3 at a concrete entry list and its reversal. -/
theorem get_balance_spec_witness :
    get_balance [demoEntry1, demoEntry2] 7 = get_balance [demoEntry2, demoEntry1] 7 :=
  (get_balance_spec 7 [demoEntry1, demoEntry2] [demoEntry2, demoEntry1] (by decide)).2.1

/-- Does the pair (p, w) pass the optional product and warehouse query
filters of StockViewSet.list (src/inventory/views.py)? -/
def pairPasses (pf wf : Option Nat) (p w : Nat) : Bool :=
  (match pf with | none => true | some x => p == x) &&
  (match wf with | none => true | some x => w == x)

/-- Does the movement pass the optional product/warehouse filters?  A
movement's row passes exactly when its (product, warehouse) pair does. -/
def passesFilter (pf wf : Option Nat) (m : StockMovement) : Bool :=
  pairPasses pf wf m.product m.warehouse

/-- The queryset pipeline written at src/inventory/views.py lines 122-145
(StockViewSet.list): group the optionally filtered movements by
(product, warehouse), annotate each group with current_quantity =
Sum('quantity'), and keep only the groups with current_quantity__gt=0.  The
display columns (sku, names, last_movement timestamp) carried along by the
source do not affect which pairs are listed and are omitted.  NOTE: this
pipeline is dead code — the view raises AttributeError at lines 118-119
before reaching it and the module does not even import (see
stockViewSetList and inventoryViewsImport below); it is embedded as the
computation the source intends. -/
def stockLevels (movs : List StockMovement) (pf wf : Option Nat) :
    List (Nat × Nat × Int) :=
  ((((movs.filter (passesFilter pf wf)).map
        (fun m => (m.product, m.warehouse))).dedup).map
      (fun pr => (pr.1, pr.2,
        currentStock (movs.filter (passesFilter pf wf)) pr.1 pr.2))).filter
    (fun t => 0 < t.2.2)

/-- Raw movement history: StockMovementViewSet.get_queryset
(src/inventory/views.py) with its optional product, warehouse and
movement_type filters.  Unlike StockViewSet.list, this method correctly uses
self.request.query_params.get and is crash-free as written (though the
module-level ImportError makes the endpoint unreachable in practice).  The
source also orders rows by created_at descending, which does not change
which rows are returned and is omitted. -/
def movementHistory (movs : List StockMovement) (pf wf : Option Nat)
    (mt : Option MovementType) : List StockMovement :=
  movs.filter (fun m => passesFilter pf wf m &&
    (match mt with | none => true | some t => m.movement_type == t))

lemma passesFilter_of_matches {p w : Nat} (pf wf : Option Nat)
    {m : StockMovement} (h : matchesPair p w m = true) :
    passesFilter pf wf m = pairPasses pf wf p w := by
  simp only [matchesPair, Bool.and_eq_true, beq_iff_eq] at h
  simp [passesFilter, h.1, h.2]

lemma currentStock_filter (movs : List StockMovement) (pf wf : Option Nat)
    (p w : Nat) (hp : pairPasses pf wf p w = true) :
    currentStock (movs.filter (passesFilter pf wf)) p w = currentStock movs p w := by
  unfold currentStock
  rw [List.filter_filter]
  have hcongr : ∀ m ∈ movs,
      (matchesPair p w m && passesFilter pf wf m) = matchesPair p w m := by
    intro m _
    cases hmp : matchesPair p w m
    · simp
    · simp [passesFilter_of_matches pf wf hmp, hp]
  rw [List.filter_congr hcongr]

lemma stockLevels_mem (movs : List StockMovement) (pf wf : Option Nat)
    (p w : Nat) (q : Int) :
    (p, w, q) ∈ stockLevels movs pf wf ↔
        pairPasses pf wf p w = true
        ∧ (∃ m ∈ movs, m.product = p ∧ m.warehouse = w)
        ∧ q = currentStock movs p w ∧ 0 < q := by
  constructor
  · intro hmem
    rw [stockLevels, List.mem_filter] at hmem
    obtain ⟨hmap, hpos⟩ := hmem
    rw [List.mem_map] at hmap
    obtain ⟨pr, hpr, heq⟩ := hmap
    rw [List.mem_dedup, List.mem_map] at hpr
    obtain ⟨m, hm, hpairm⟩ := hpr
    rw [List.mem_filter] at hm
    obtain ⟨hmmem, hmpass⟩ := hm
    simp only [Prod.ext_iff] at heq
    obtain ⟨h1, h2, h3⟩ := heq
    have hmp : m.product = p := by
      have := congrArg Prod.fst hpairm
      simpa [h1] using this
    have hmw : m.warehouse = w := by
      have := congrArg Prod.snd hpairm
      simpa [h2] using this
    have hpass : pairPasses pf wf p w = true := by
      have hx : passesFilter pf wf m = true := hmpass
      rw [passesFilter, hmp, hmw] at hx
      exact hx
    have hq : q = currentStock movs p w := by
      rw [← h3, h1, h2, currentStock_filter movs pf wf p w hpass]
    refine ⟨hpass, ⟨m, hmmem, hmp, hmw⟩, hq, ?_⟩
    simpa using hpos
  · rintro ⟨hpass, ⟨m, hm, hmp, hmw⟩, hq, hpos⟩
    rw [stockLevels, List.mem_filter]
    refine ⟨?_, by simpa using hpos⟩
    rw [List.mem_map]
    refine ⟨(p, w), ?_, ?_⟩
    · rw [List.mem_dedup, List.mem_map]
      refine ⟨m, ?_, by simp [hmp, hmw]⟩
      rw [List.mem_filter]
      refine ⟨hm, ?_⟩
      rw [passesFilter, hmp, hmw]
      exact hpass
    · simp [currentStock_filter movs pf wf p w hpass, hq]

/-- Python exceptions raised by src/inventory/views.py before any view code
can run: the module-level from-import fails (ImportError), and
StockViewSet.list dereferences request.query, an attribute a DRF Request
does not have (AttributeError). -/
inductive PyExc
  | ImportError
  | AttributeError
deriving DecidableEq, Repr

/-- Attribute surface of the DRF Request object as far as the stock views
touch it: there is an attribute query_params; there is no attribute named
query, so the lookup request.query raises AttributeError. -/
def requestHasAttr : String → Bool
  | "query_params" => true
  | _ => false

/-- The names src/inventory/serializers.py actually defines at module level.
StockLevelSerializer is NOT among them: in the source it is accidentally
nested inside the StockMovementCreate class body; and the movement-creation
serializer is named StockMovementCreate, not StockMovementCreateSerializer. -/
def inventorySerializersExports : List String :=
  ["CategorySerializer", "ProductSerializer", "ProductListSerializer",
   "WarehouseSerializer", "StockMovementSerializer", "StockMovementCreate"]

/-- The from-import at src/inventory/views.py lines 13-16: loading the views
module resolves each requested name against the serializer module's
exports.  StockMovementCreateSerializer and StockLevelSerializer are
absent, so the import — and with it the whole inventory views module, every
endpoint included — fails with ImportError. -/
def inventoryViewsImport : Except PyExc Unit :=
  if ["CategorySerializer", "ProductSerializer", "ProductListSerializer",
      "WarehouseSerializer", "StockMovementSerializer",
      "StockMovementCreateSerializer", "StockLevelSerializer"].all
      (fun n => inventorySerializersExports.contains n) = true then .ok ()
  else .error .ImportError

/-- StockViewSet.list (src/inventory/views.py lines 112-145) as it actually
executes when invoked: line 118 evaluates request.query.params_get, whose
very first step — the attribute lookup request.query — raises
AttributeError, so every request fails before the movement queryset is
built and the aggregation pipeline at lines 122-145 (embedded as
stockLevels) is dead code.  Had the attribute existed, the listing would be
the stockLevels pipeline. -/
def stockViewSetList (pf wf : Option Nat) (movs : List StockMovement) :
    Except PyExc (List (Nat × Nat × Int)) :=
  if requestHasAttr "query" = true then .ok (stockLevels movs pf wf)
  else .error .AttributeError

/-- C1 (code bug): the claim describes the intended current-stock aggregate
(the spec contract, section 4.2) and that intent holds of the dead pipeline:
the sum of the pair's signed quantities, exactly, order-independently, zero
when no movement of the pair exists.  But the code the claim attributes it
to never computes anything: the inventory views module fails to import,
StockViewSet.list raises AttributeError at request.query before any
aggregation, and even the dead pipeline's grouped Sum produces no row at
all for a movement-less pair rather than the zero the contract demands. -/
theorem currentStock_code_bug (p w : Nat) (l l' : List StockMovement)
    (h : List.Perm l l') :
    stockViewSetList none none l = Except.error PyExc.AttributeError
      ∧ inventoryViewsImport = Except.error PyExc.ImportError
      ∧ currentStock l p w
          = (l.filter (matchesPair p w)).foldl (fun acc m => acc + m.quantity) 0
      ∧ currentStock l p w = currentStock l' p w
      ∧ ((∀ m ∈ l, matchesPair p w m = false) →
          currentStock l p w = 0
            ∧ ∀ q : Int, (p, w, q) ∉ stockLevels l none none) := by
  refine ⟨rfl, rfl, sum_map_eq_foldl _ _, ?_, ?_⟩
  · exact List.Perm.sum_eq (List.Perm.map _ (List.Perm.filter _ h))
  · intro hnone
    constructor
    · have hfilt : l.filter (matchesPair p w) = [] := by
        apply List.filter_eq_nil_iff.mpr
        intro m hm
        simp [hnone m hm]
      simp [currentStock, hfilt]
    · intro q hqmem
      rcases (stockLevels_mem l none none p w q).mp hqmem with
        ⟨hpass, ⟨m, hm, hmp, hmw⟩, hq, hpos⟩
      have hmatch : matchesPair p w m = true := by
        simp [matchesPair, hmp, hmw]
      rw [hnone m hm] at hmatch
      cases hmatch

/-- Witness for C1: the crash evaluated on the demo movements, and the dead
pipeline's aggregate agreeing across a reordering. -/
theorem currentStock_code_bug_witness :
    stockViewSetList none none [demoMov1, demoMov2]
        = Except.error PyExc.AttributeError
      ∧ currentStock [demoMov1, demoMov2] 1 2
        = currentStock [demoMov2, demoMov1] 1 2 :=
  ⟨(currentStock_code_bug 1 2 [demoMov1, demoMov2] [demoMov2, demoMov1]
      (by decide)).1,
   (currentStock_code_bug 1 2 [demoMov1, demoMov2] [demoMov2, demoMov1]
      (by decide)).2.2.2.1⟩

/-- C6 (code bug): the stock-level listing endpoint never returns a listing:
the inventory views module fails to import, and StockViewSet.list raises
AttributeError at request.query (views.py lines 118-119) before its
queryset is built.  The dead pipeline it was meant to run does implement
the claimed restriction — a triple is listed iff its pair passes the
filters, has at least one movement, and its computed quantity is strictly
positive — and the raw movement-history query (crash-free as written)
returns every movement of a pair whatever the sign of its total. -/
theorem stockLevels_code_bug (movs : List StockMovement) (pf wf : Option Nat)
    (p w : Nat) (q : Int) :
    stockViewSetList pf wf movs = Except.error PyExc.AttributeError
      ∧ inventoryViewsImport = Except.error PyExc.ImportError
      ∧ ((p, w, q) ∈ stockLevels movs pf wf ↔
          pairPasses pf wf p w = true
          ∧ (∃ m ∈ movs, m.product = p ∧ m.warehouse = w)
          ∧ q = currentStock movs p w ∧ 0 < q)
      ∧ (∀ m ∈ movs, m.product = p → m.warehouse = w →
          m ∈ movementHistory movs (some p) (some w) none) := by
  refine ⟨rfl, rfl, stockLevels_mem movs pf wf p w q, ?_⟩
  intro m hm hmp hmw
  rw [movementHistory, List.mem_filter]
  refine ⟨hm, ?_⟩
  simp [passesFilter, pairPasses, hmp, hmw]

/-- Witness for C6: the crash evaluated on the demo movements, and the dead
pipeline listing the pair (1,2) with total +6.000. -/
theorem stockLevels_code_bug_witness :
    stockViewSetList none none [demoMov1, demoMov2]
        = Except.error PyExc.AttributeError
      ∧ (1, 2, (6000 : Int)) ∈ stockLevels [demoMov1, demoMov2] none none :=
  ⟨(stockLevels_code_bug [demoMov1, demoMov2] none none 1 2 6000).1,
   ((stockLevels_code_bug [demoMov1, demoMov2] none none 1 2 6000).2.2.1).mpr
     (by decide)⟩

/-- Error kinds surfaced by the embedded operations.  ValidationError,
InvalidStateError, InsufficientStockError and ConflictError are the spec's
taxonomy (spec section 7); BadRequest is the plain Response(status=400) that
StockMovementViewSet.create returns for non-ADJUSTMENT manual movements
(src/inventory/views.py), which is not a serializer ValidationError. -/
inductive Err
  | ValidationError
  | InvalidStateError
  | InsufficientStockError
  | ConflictError
  | BadRequest
deriving DecidableEq, Repr

/-- Value-range check of a Django DecimalField: the scaled integer value fits
max_digits total digits iff its absolute value is below 10 ^ max_digits
(django DecimalValidator). -/
def decimalInRange (max_digits : Nat) (v : Int) : Bool :=
  v.natAbs < 10 ^ max_digits

/-- Model-level validation of a StockMovement row (src/inventory/models.py):
quantity is DecimalField(max_digits=15, decimal_places=3); reference_id is
declared null=True, blank=True with NO kind-conditional requirement (lines
169-179), so no constraint ties it to movement_type; the enum fields are
well-typed by construction. -/
def stockMovementFieldValid (m : StockMovement) : Bool :=
  decimalInRange 15 m.quantity

/-- Model-level append (StockMovement.objects.create): stores the row when
its fields validate; there is no further business-rule check. -/
def modelAppendMovement (movs : List StockMovement) (m : StockMovement) :
    Except Err (List StockMovement) :=
  if stockMovementFieldValid m then .ok (m :: movs) else .error .ValidationError

/-- Input fields of the StockMovementCreate serializer
(src/inventory/serializers.py): product, warehouse, movement_type, quantity,
reference_type, reference_id, created_by. -/
structure MovementInput where
  product : Nat
  warehouse : Nat
  movement_type : MovementType
  quantity : Int
  reference_type : ReferenceType
  reference_id : Option Nat
  created_by : Nat
deriving DecidableEq, Repr

/-- Serializer validation of a movement-creation request: the model-derived
field checks only (the serializer declares no validate_... method and the
model leaves reference_id unconstrained), i.e. the DecimalField bounds on
quantity.  FK existence checks are outside the embedding. -/
def stockMovementCreateIsValid (d : MovementInput) : Bool :=
  decimalInRange 15 d.quantity

/-- Build the stored row from validated input; the view overrides created_by
with the requesting user (src/inventory/views.py, StockMovementViewSet.create). -/
def mkMovement (nid : Nat) (d : MovementInput) (user : Nat) : StockMovement :=
  { id := nid, product := d.product, warehouse := d.warehouse,
    movement_type := d.movement_type, quantity := d.quantity,
    reference_type := d.reference_type, reference_id := d.reference_id,
    created_by := user, created_at := nid }

/-- The event store: the stock_movement and ledger_entry tables plus a
freshness counter standing for the uuid/clock source. -/
structure EventStore where
  movements : List StockMovement
  entries : List LedgerEntry
  next_id : Nat
deriving DecidableEq, Repr

/-- StockMovementViewSet.create (src/inventory/views.py): validate the input,
reject any movement_type other than ADJUSTMENT with a plain 400 response, and
otherwise store the movement with created_by set to the requesting user. -/
def movementViewCreate (st : EventStore) (d : MovementInput) (user : Nat) :
    EventStore × Option Err :=
  if stockMovementCreateIsValid d = true then
    if d.movement_type = MovementType.ADJUSTMENT then
      ({ st with movements := mkMovement st.next_id d user :: st.movements,
                 next_id := st.next_id + 1 }, none)
    else (st, some .BadRequest)
  else (st, some .ValidationError)

/-- The public interface over the two event tables, as exposed by the source:
StockMovementViewSet allows only GET and POST (http_method_names =
['get', 'post'], src/inventory/views.py); StockViewSet is a read-only listing;
the finance app exposes no view at all for LedgerEntry, and the admin screens
for both models forbid add, change and delete
(src/inventory/admin.py, src/finance/admin.py), so they are reads. -/
inductive StoreOp
  | movementList (pf wf : Option Nat) (mt : Option MovementType)
  | stockList (pf wf : Option Nat)
  | adminMovementView
  | adminLedgerView
  | movementCreate (d : MovementInput) (user : Nat)
deriving Repr

/-- One interface operation against the event store.  Read operations return
data computed from the state and leave it unchanged. -/
def applyStoreOp (st : EventStore) : StoreOp → EventStore
  | .movementList _ _ _ => st
  | .stockList _ _ => st
  | .adminMovementView => st
  | .adminLedgerView => st
  | .movementCreate d user => (movementViewCreate st d user).1

/-- Run a sequence of interface operations. -/
def applyStoreOps (st : EventStore) : List StoreOp → EventStore
  | [] => st
  | op :: rest => applyStoreOps (applyStoreOp st op) rest

lemma movementViewCreate_preserves (st : EventStore) (d : MovementInput)
    (user : Nat) (m : StockMovement) (hm : m ∈ st.movements) :
    m ∈ (movementViewCreate st d user).1.movements := by
  unfold movementViewCreate
  split_ifs <;> simp [hm]

lemma movementViewCreate_entries (st : EventStore) (d : MovementInput)
    (user : Nat) : (movementViewCreate st d user).1.entries = st.entries := by
  unfold movementViewCreate
  split_ifs <;> rfl

/-- C7: the public interface is append-only.  After any sequence of interface
operations, every stock movement and every ledger entry present before is
still present, with all its fields unchanged (rows are immutable values, so
membership of the same value is field-for-field preservation). -/
theorem eventStore_append_only (ops : List StoreOp) (st : EventStore)
    (m : StockMovement) (e : LedgerEntry)
    (hm : m ∈ st.movements) (he : e ∈ st.entries) :
    m ∈ (applyStoreOps st ops).movements ∧ e ∈ (applyStoreOps st ops).entries := by
  induction ops generalizing st with
  | nil => exact ⟨hm, he⟩
  | cons op rest ih =>
    apply ih
    · cases op with
      | movementCreate d user => exact movementViewCreate_preserves st d user m hm
      | movementList pf wf mt => exact hm
      | stockList pf wf => exact hm
      | adminMovementView => exact hm
      | adminLedgerView => exact hm
    · cases op with
      | movementCreate d user =>
          rw [applyStoreOp, movementViewCreate_entries]; exact he
      | movementList pf wf mt => exact he
      | stockList pf wf => exact he
      | adminMovementView => exact he
      | adminLedgerView => exact he

/-- A valid manual ADJUSTMENT input. -/
def adjInput : MovementInput :=
  { product := 1, warehouse := 2, movement_type := .ADJUSTMENT, quantity := 500,
    reference_type := .MANUAL, reference_id := none, created_by := 9 }

/-- Witness for C7: the demo events survive a create followed by reads. -/
theorem eventStore_append_only_witness :
    demoMov1 ∈ (applyStoreOps ⟨[demoMov1], [demoEntry1], 10⟩
        [StoreOp.movementCreate adjInput 9, StoreOp.stockList none none,
         StoreOp.adminLedgerView]).movements
    ∧ demoEntry1 ∈ (applyStoreOps ⟨[demoMov1], [demoEntry1], 10⟩
        [StoreOp.movementCreate adjInput 9, StoreOp.stockList none none,
         StoreOp.adminLedgerView]).entries :=
  eventStore_append_only _ _ demoMov1 demoEntry1 (by decide) (by decide)

/-- A SALE-kind movement whose reference id is absent. -/
def saleMovNoRef : StockMovement :=
  { id := 3, product := 1, warehouse := 2, movement_type := .SALE,
    quantity := -4000, reference_type := .SALE, reference_id := none,
    created_by := 9, created_at := 5 }

/-- C9 counterexample: appending a SALE-kind StockMovement with an absent
reference id does NOT fail with ValidationError — the model-level append
accepts it and stores the event, because reference_id is nullable and no
validation ties it to the movement kind. -/
theorem sale_movement_missing_reference_accepted :
    modelAppendMovement [] saleMovNoRef = Except.ok [saleMovNoRef] := by
  rfl

/-- A SALE-kind creation input without a reference id. -/
def saleInputNoRef : MovementInput :=
  { product := 1, warehouse := 2, movement_type := .SALE, quantity := -4000,
    reference_type := .SALE, reference_id := none, created_by := 9 }

/-- C9 amended: no kind-dependent reference validation exists.  Serializer
validation accepts any quantity-valid input whatever its reference id; the
model-level append stores a SALE-kind movement with an absent reference id;
and the manual create endpoint rejects every non-ADJUSTMENT movement with a
plain 400 error, independent of the reference id, storing nothing. -/
theorem movement_reference_validation (d : MovementInput) (st : EventStore)
    (user : Nat) (hq : decimalInRange 15 d.quantity = true) :
    stockMovementCreateIsValid d = true
    ∧ (d.movement_type ≠ MovementType.ADJUSTMENT →
        movementViewCreate st d user = (st, some Err.BadRequest))
    ∧ modelAppendMovement [] saleMovNoRef = Except.ok [saleMovNoRef] := by
  refine ⟨hq, ?_, by rfl⟩
  intro hne
  unfold movementViewCreate
  simp [stockMovementCreateIsValid, hq, hne]

/-- Witness for the amended C9 theorem at the concrete SALE input. -/
theorem movement_reference_validation_witness :
    movementViewCreate ⟨[demoMov1], [demoEntry1], 10⟩ saleInputNoRef 9
      = (⟨[demoMov1], [demoEntry1], 10⟩, some Err.BadRequest) :=
  (movement_reference_validation saleInputNoRef ⟨[demoMov1], [demoEntry1], 10⟩ 9
    (by decide)).2.1 (by decide)

/-- Sale states (src/sales/models.py STATUS_CHOICES). -/
inductive SaleStatus
  | PENDING
  | COMPLETED
  | VOIDED
  | REFUNDED
deriving DecidableEq, Repr

/-- Payment methods (src/sales/models.py PAYMENT_METHOD_CHOICES). -/
inductive PaymentMethod
  | CASH
  | MPESA
  | CARD
  | BANK
deriving DecidableEq, Repr

/-- Audit actions (src/audit/models.py ACTION_CHOICES). -/
inductive AuditAction
  | CREATE
  | UPDATE
  | DELETE
  | VOID
deriving DecidableEq, Repr

/-- A Product row (src/inventory/models.py): unit cost and price in cents
(DecimalField decimal_places=2), the track_stock flag and the active flag. -/
structure Product where
  id : Nat
  sku : Nat
  unit_cost : Int
  unit_price : Int
  track_stock : Bool
  is_active : Bool
deriving DecidableEq, Repr

/-- A Sale row (src/sales/models.py).  Money totals are in cents; note the
source declares subtotal with max_digits=5 while tax_total, discount_total
and grand_total have max_digits=15. -/
structure Sale where
  id : Nat
  sale_number : Nat
  warehouse : Nat
  sold_by : Nat
  status : SaleStatus
  subtotal : Int
  tax_total : Int
  discount_total : Int
  grand_total : Int
deriving DecidableEq, Repr

/-- A SaleItem row (src/sales/models.py): quantity and unit_price are
3-decimal fixed point (both declared decimal_places=3 in the source, the
price being the copy taken from the product at creation); line_total is
2-decimal money. -/
structure SaleItem where
  id : Nat
  sale : Nat
  product : Nat
  quantity : Int
  unit_price : Int
  line_total : Int
deriving DecidableEq, Repr

/-- A payment row (src/sales/models.py; the source class is named Payments).
reference_code is optional (blank=True). -/
structure Payments where
  id : Nat
  sale : Nat
  payment_method : PaymentMethod
  amount : Int
  reference_code : Option String
  received_by : Nat
  created_at : Nat
deriving DecidableEq, Repr

/-- An AuditLog row (src/audit/models.py); the before/after snapshots are
structural copies of the sale and its items at the instant of capture. -/
structure AuditLog where
  id : Nat
  user : Nat
  action : AuditAction
  entity_type : String
  entity_id : Nat
  before_state : Option (Sale × List SaleItem)
  after_state : Option (Sale × List SaleItem)
  created_at : Nat
deriving DecidableEq, Repr

/-- Full system state: one list per table plus a freshness counter standing
for the uuid/clock source. -/
structure SysState where
  products : List Product
  sales : List Sale
  items : List SaleItem
  payments : List Payments
  movements : List StockMovement
  entries : List LedgerEntry
  audits : List AuditLog
  next_id : Nat
deriving DecidableEq, Repr

def findSale (st : SysState) (sid : Nat) : Option Sale :=
  st.sales.find? (fun s => s.id == sid)

def findProduct (st : SysState) (pid : Nat) : Option Product :=
  st.products.find? (fun p => p.id == pid)

/-- The line items belonging to a sale (the items FK relation). -/
def saleItems (st : SysState) (sid : Nat) : List SaleItem :=
  st.items.filter (fun it => it.sale == sid)

/-- Status of a sale, when it exists. -/
def saleStatus (st : SysState) (sid : Nat) : Option SaleStatus :=
  (findSale st sid).map (fun s => s.status)

/-- line_total = quantity * unit_price on the scaled representatives.  The
source fixes no rounding rule for the 2-decimal result (spec section 9 lists
it as an open question) and no claim depends on it, so the raw product is
kept. -/
def lineTotal (q price : Int) : Int := q * price

/-- subtotal = sum of the line totals of the sale's items (spec section
4.3). -/
def subtotalOf (items : List SaleItem) (sid : Nat) : Int :=
  ((items.filter (fun it => it.sale == sid)).map (fun it => it.line_total)).sum

/-- The SaleItem created for a sale: the id comes from the freshness counter
and the unit price is the copy of the product's current price. -/
def newSaleItem (nid sid : Nat) (prod : Product) (qty : Int) : SaleItem :=
  { id := nid, sale := sid, product := prod.id, quantity := qty,
    unit_price := prod.unit_price, line_total := lineTotal qty prod.unit_price }

/-- Recompute a sale's denormalized totals from the given item list (spec
section 4.3: subtotal = sum of line totals, grand_total = subtotal -
discount_total + tax_total). -/
def recomputeTotals (items : List SaleItem) (s : Sale) : Sale :=
  { s with
    subtotal := subtotalOf items s.id,
    grand_total := subtotalOf items s.id - s.discount_total + s.tax_total }

/-- Modelled from the spec: the addItem(sale, product, quantity) service of
spec section 4.3 has no implementation under src (the sales app ships only
models, serializers and admin).  Per the spec: only legal while the sale is
PENDING, else InvalidStateError; quantity must be > 0, else ValidationError;
the product's current unit price is copied onto the item (price-freezing);
subtotal and grand_total are recomputed from all items, with grand_total =
subtotal - discount_total + tax_total. -/
def addItem (st : SysState) (sid pid : Nat) (qty : Int) : Except Err SysState :=
  match findSale st sid, findProduct st pid with
  | some sale, some prod =>
    if sale.status ≠ SaleStatus.PENDING then .error .InvalidStateError
    else if qty ≤ 0 then .error .ValidationError
    else
      .ok { st with
            items := newSaleItem st.next_id sid prod qty :: st.items,
            sales := st.sales.map (fun s => if s.id == sid then
                recomputeTotals (newSaleItem st.next_id sid prod qty :: st.items) s
              else s),
            next_id := st.next_id + 1 }
  | _, _ => .error .ValidationError

/-- Is the item short on stock: its product exists, tracks stock, and the
available stock of (product, sale warehouse) is below the item quantity? -/
def stockShort (st : SysState) (w : Nat) (it : SaleItem) : Bool :=
  match findProduct st it.product with
  | some p => p.track_stock && decide (currentStock st.movements it.product w < it.quantity)
  | none => false

/-- The movement emitted for one stock-tracked item of a completing sale:
kind SALE, quantity negated, reference kind SALE carrying the sale id (spec
section 4.3). -/
def saleMovement (nid : Nat) (sale : Sale) (it : SaleItem) : StockMovement :=
  { id := nid, product := it.product, warehouse := sale.warehouse,
    movement_type := .SALE, quantity := -it.quantity,
    reference_type := .SALE, reference_id := some sale.id,
    created_by := sale.sold_by, created_at := nid }

/-- Modelled from the spec: the stock-validation-and-emission loop inside
complete(sale) (spec section 4.3), absent from src.  Walking the items in
order: an item with a dangling product reference fails validation; a
stock-short item aborts the whole traversal with InsufficientStockError,
discarding every movement already emitted for the items before it; otherwise
each stock-tracked item contributes one SALE movement (non-tracked items
contribute none). -/
def checkAndEmit (st : SysState) (sale : Sale) :
    Nat → List SaleItem → Except Err (List StockMovement)
  | _, [] => .ok []
  | nid, it :: rest =>
    match findProduct st it.product with
    | none => .error .ValidationError
    | some prod =>
      if stockShort st sale.warehouse it = true then
        .error .InsufficientStockError
      else
        match checkAndEmit st sale (nid + 1) rest with
        | .error e => .error e
        | .ok ms =>
          if prod.track_stock then .ok (saleMovement nid sale it :: ms)
          else .ok ms

/-- Modelled from the spec: complete(sale) (spec section 4.3), absent from
src.  Preconditions: the sale exists, status == PENDING, at least one item.
Every stock-tracked item is validated against the aggregated current stock;
on success the SALE movements, one ledger entry crediting the designated
revenue account with grand_total, the transition to COMPLETED and one audit
record with before/after snapshots are all part of the single returned
state; any failure returns an error and no new state. -/
def complete (revenue : Nat) (st : SysState) (sid : Nat) : Except Err SysState :=
  match findSale st sid with
  | none => .error .ValidationError
  | some sale =>
    if sale.status ≠ SaleStatus.PENDING then .error .InvalidStateError
    else if saleItems st sid = [] then .error .ValidationError
    else
      match checkAndEmit st sale st.next_id (saleItems st sid) with
      | .error e => .error e
      | .ok ms =>
        .ok { st with
              sales := st.sales.map (fun s => if s.id == sid then
                  { sale with status := SaleStatus.COMPLETED } else s),
              movements := ms ++ st.movements,
              entries := { id := st.next_id + ms.length, account := revenue,
                           amount := sale.grand_total,
                           reference_type := LedgerReferenceType.SALE,
                           reference_id := sale.id,
                           created_at := st.next_id + ms.length } :: st.entries,
              audits := { id := st.next_id + ms.length + 1, user := sale.sold_by,
                          action := .UPDATE, entity_type := "Sale",
                          entity_id := sale.id,
                          before_state := some (sale, saleItems st sid),
                          after_state :=
                            some ({ sale with status := SaleStatus.COMPLETED },
                              saleItems st sid),
                          created_at := st.next_id + ms.length + 1 } :: st.audits,
              next_id := st.next_id + ms.length + 2 }

/-- The state the caller observes after a completion attempt: the new state
on success, the prior state on error (the transaction commits nothing, spec
section 7). -/
def runComplete (revenue : Nat) (st : SysState) (sid : Nat) : SysState :=
  match complete revenue st sid with
  | .ok st2 => st2
  | .error _ => st

/-- The audit record for a sale transition: before/after structural
snapshots of the sale and its items (spec section 4.4). -/
def saleAudit (nid : Nat) (action : AuditAction) (before after : Sale)
    (items : List SaleItem) : AuditLog :=
  { id := nid, user := before.sold_by, action := action, entity_type := "Sale",
    entity_id := before.id, before_state := some (before, items),
    after_state := some (after, items), created_at := nid }

/-- Modelled from the spec: void(sale) (spec section 4.3), absent from src.
Only legal while PENDING, else InvalidStateError; transitions to VOIDED and
emits one AuditLog; touches neither stock nor ledger. -/
def voidSale (st : SysState) (sid : Nat) : Except Err SysState :=
  match findSale st sid with
  | none => .error .ValidationError
  | some sale =>
    if sale.status ≠ SaleStatus.PENDING then .error .InvalidStateError
    else
      .ok { st with
            sales := st.sales.map (fun s => if s.id == sid then
                { sale with status := SaleStatus.VOIDED } else s),
            audits := saleAudit st.next_id AuditAction.VOID sale
                { sale with status := SaleStatus.VOIDED }
                (saleItems st sid) :: st.audits,
            next_id := st.next_id + 1 }

/-- The movement restoring stock for one refunded stock-tracked item: kind
REFUND with positive quantity (spec section 4.3). -/
def refundMovement (nid : Nat) (sale : Sale) (it : SaleItem) : StockMovement :=
  { id := nid, product := it.product, warehouse := sale.warehouse,
    movement_type := .REFUND, quantity := it.quantity,
    reference_type := .SALE, reference_id := some sale.id,
    created_by := sale.sold_by, created_at := nid }

/-- The REFUND movements for the sale's stock-tracked items. -/
def refundMovements (st : SysState) (sale : Sale) :
    Nat → List SaleItem → List StockMovement
  | _, [] => []
  | nid, it :: rest =>
    match findProduct st it.product with
    | some prod =>
      if prod.track_stock then
        refundMovement nid sale it :: refundMovements st sale (nid + 1) rest
      else refundMovements st sale nid rest
    | none => refundMovements st sale nid rest

/-- Modelled from the spec: refund(sale) in full (spec section 4.3), absent
from src.  Only legal from COMPLETED, else InvalidStateError; appends REFUND
movements restoring the stock of the tracked items and one compensating
negative ledger entry against the revenue account; transitions to REFUNDED
and emits one AuditLog.  The sale's items are left untouched. -/
def refundSale (revenue : Nat) (st : SysState) (sid : Nat) : Except Err SysState :=
  match findSale st sid with
  | none => .error .ValidationError
  | some sale =>
    if sale.status ≠ SaleStatus.COMPLETED then .error .InvalidStateError
    else
      .ok { st with
            sales := st.sales.map (fun s => if s.id == sid then
                { sale with status := SaleStatus.REFUNDED } else s),
            movements := refundMovements st sale st.next_id (saleItems st sid)
              ++ st.movements,
            entries := { id := st.next_id + (saleItems st sid).length,
                         account := revenue, amount := -sale.grand_total,
                         reference_type := LedgerReferenceType.REFUND,
                         reference_id := sale.id,
                         created_at := st.next_id + (saleItems st sid).length }
              :: st.entries,
            audits := saleAudit (st.next_id + (saleItems st sid).length + 1)
                AuditAction.UPDATE sale { sale with status := SaleStatus.REFUNDED }
                (saleItems st sid) :: st.audits,
            next_id := st.next_id + (saleItems st sid).length + 2 }

/-- Does a provided reference code collide with an existing payment's code?
An absent code never collides (the model allows blank codes). -/
def paymentRefTaken (payments : List Payments) : Option String → Bool
  | some r => payments.any (fun p => p.reference_code == some r)
  | none => false

/-- Modelled from the spec: recordPayment (spec section 4.3), absent from
src.  Amount must be > 0 else ValidationError; rejected on a voided sale; a
provided reference code colliding with an existing payment's code fails with
ConflictError (the source model declares reference_code unique). -/
def recordPayment (st : SysState) (sid : Nat) (method : PaymentMethod)
    (amount : Int) (ref : Option String) (user : Nat) : Except Err SysState :=
  match findSale st sid with
  | none => .error .ValidationError
  | some sale =>
    if amount ≤ 0 then .error .ValidationError
    else if sale.status = SaleStatus.VOIDED then .error .InvalidStateError
    else if paymentRefTaken st.payments ref then .error .ConflictError
    else
      .ok { st with
            payments := { id := st.next_id, sale := sid, payment_method := method,
                          amount := amount, reference_code := ref,
                          received_by := user, created_at := st.next_id }
              :: st.payments,
            next_id := st.next_id + 1 }

/-- ProductViewSet accepts PUT/PATCH and ProductSerializer exposes unit_price
as writable (src/inventory/views.py, src/inventory/serializers.py): update a
product's selling price in the catalog.  Only the products table changes. -/
def updateProductPrice (st : SysState) (pid : Nat) (price : Int) : SysState :=
  { st with products := st.products.map (fun p =>
                if p.id == pid then { p with unit_price := price } else p) }

/-- Sale-item deletion through the admin (src/sales/admin.py, SaleItemAdmin
and SaleItemInline): has_delete_permission returns False when the owning
sale's status is COMPLETED, so deletion proceeds only otherwise.  All item
fields are in readonly_fields, so deletion is the only admin mutation. -/
def adminDeleteItem (st : SysState) (iid : Nat) : SysState :=
  match st.items.find? (fun it => it.id == iid) with
  | none => st
  | some it =>
    if saleStatus st it.sale = some SaleStatus.COMPLETED then st
    else { st with items := st.items.filter (fun x => x.id != iid) }

/-- The operations that can touch the workflow state: the spec's workflow
calls plus the mutating surfaces the source itself exposes (catalog price
update, admin sale-item deletion). -/
inductive WOp
  | addItemOp (sid pid : Nat) (qty : Int)
  | recordPaymentOp (sid : Nat) (method : PaymentMethod) (amount : Int)
      (ref : Option String) (user : Nat)
  | completeOp (revenue sid : Nat)
  | voidOp (sid : Nat)
  | refundOp (revenue sid : Nat)
  | updatePriceOp (pid : Nat) (price : Int)
  | adminDeleteItemOp (iid : Nat)
deriving Repr

/-- A fallible call leaves the state unchanged when it errors (spec section
7: every rejected operation leaves all entities exactly as they were). -/
def applyE (st : SysState) : Except Err SysState → SysState
  | .ok st2 => st2
  | .error _ => st

/-- Execute one workflow operation. -/
def step (st : SysState) : WOp → SysState
  | .addItemOp sid pid qty => applyE st (addItem st sid pid qty)
  | .recordPaymentOp sid m a r u => applyE st (recordPayment st sid m a r u)
  | .completeOp revenue sid => applyE st (complete revenue st sid)
  | .voidOp sid => applyE st (voidSale st sid)
  | .refundOp revenue sid => applyE st (refundSale revenue st sid)
  | .updatePriceOp pid price => updateProductPrice st pid price
  | .adminDeleteItemOp iid => adminDeleteItem st iid

/-- Execute a sequence of workflow operations. -/
def applyOps (st : SysState) : List WOp → SysState
  | [] => st
  | op :: rest => applyOps (step st op) rest

lemma checkAndEmit_insufficient (st : SysState) (sale : Sale)
    (l : List SaleItem) (nid : Nat)
    (hall : ∀ it ∈ l, (findProduct st it.product).isSome = true)
    (hex : ∃ it ∈ l, stockShort st sale.warehouse it = true) :
    checkAndEmit st sale nid l = .error .InsufficientStockError := by
  induction l generalizing nid with
  | nil => simp at hex
  | cons it rest ih =>
    obtain ⟨p, hp⟩ :=
      Option.isSome_iff_exists.mp (hall it (List.mem_cons_self it rest))
    by_cases hshort : stockShort st sale.warehouse it = true
    · simp [checkAndEmit, hp, hshort]
    · have hexr : ∃ it2 ∈ rest, stockShort st sale.warehouse it2 = true := by
        obtain ⟨it2, hmem, hs2⟩ := hex
        rcases List.mem_cons.mp hmem with heq | hmem2
        · exact absurd (heq ▸ hs2) hshort
        · exact ⟨it2, hmem2, hs2⟩
      have hrest := ih (nid + 1) (fun it2 h2 => hall it2 (List.mem_cons_of_mem _ h2)) hexr
      simp [checkAndEmit, hp, hshort, hrest]

/-- C2: completing a PENDING sale whose stock check fails for some item (its
product tracks stock and the available stock of the pair is below the item
quantity) fails with InsufficientStockError, and the attempt commits
nothing: the observed state is the prior state — no stock movement, no
ledger entry, no audit record, and the sale is still PENDING, even though
items earlier in the list passed their checks. -/
theorem complete_insufficient_stock_atomic (revenue sid : Nat) (st : SysState)
    (sale : Sale) (hfind : findSale st sid = some sale)
    (hpend : sale.status = SaleStatus.PENDING)
    (hall : ∀ it ∈ saleItems st sid, (findProduct st it.product).isSome = true)
    (hex : ∃ it ∈ saleItems st sid, stockShort st sale.warehouse it = true) :
    complete revenue st sid = .error .InsufficientStockError
      ∧ runComplete revenue st sid = st
      ∧ (runComplete revenue st sid).movements = st.movements
      ∧ (runComplete revenue st sid).entries = st.entries
      ∧ (runComplete revenue st sid).audits = st.audits
      ∧ saleStatus (runComplete revenue st sid) sid = some SaleStatus.PENDING := by
  have hne : saleItems st sid ≠ [] := by
    obtain ⟨it, hmem, _⟩ := hex
    intro hnil
    rw [hnil] at hmem
    simp at hmem
  have hcheck :=
    checkAndEmit_insufficient st sale (saleItems st sid) st.next_id hall hex
  have hc : complete revenue st sid = .error .InsufficientStockError := by
    simp [complete, hfind, hpend, hne, hcheck]
  have hr : runComplete revenue st sid = st := by
    unfold runComplete
    rw [hc]
  refine ⟨hc, hr, ?_, ?_, ?_, ?_⟩ <;> rw [hr]
  simp [saleStatus, hfind, hpend]

/-- A stock-tracked product sold at 250.00. -/
def demoProduct : Product :=
  { id := 1, sku := 100, unit_cost := 10000, unit_price := 25000,
    track_stock := true, is_active := true }

/-- A pending sale in warehouse 2. -/
def demoSale : Sale :=
  { id := 5, sale_number := 1, warehouse := 2, sold_by := 9,
    status := .PENDING, subtotal := 0, tax_total := 0, discount_total := 0,
    grand_total := 100000 }

/-- An item demanding 15.000 units, more than the 10.000 in stock. -/
def demoItemBig : SaleItem :=
  { id := 6, sale := 5, product := 1, quantity := 15000,
    unit_price := 25000, line_total := 375000 }

/-- A pending sale over-demanding stock: product 1 has +10.000 units in
warehouse 2 (demoMov1); the sale's single item asks for 15.000. -/
def demoOverState : SysState :=
  { products := [demoProduct], sales := [demoSale], items := [demoItemBig],
    payments := [], movements := [demoMov1], entries := [], audits := [],
    next_id := 20 }

/-- Witness for C2 at the concrete over-demanding sale. -/
theorem complete_insufficient_stock_atomic_witness :
    complete 7 demoOverState 5 = Except.error Err.InsufficientStockError :=
  (complete_insufficient_stock_atomic 7 5 demoOverState demoSale (by rfl)
    (by rfl) (by decide) (by decide)).1

lemma find?_replace (l : List Sale) (sid : Nat) (r s : Sale)
    (h : l.find? (fun x => x.id == sid) = some s) (hr : (r.id == sid) = true) :
    (l.map (fun x => if x.id == sid then r else x)).find? (fun x => x.id == sid)
      = some r := by
  induction l with
  | nil => simp at h
  | cons a t ih =>
    rw [List.map_cons]
    by_cases ha : (a.id == sid) = true
    · rw [if_pos ha]
      simp only [List.find?_cons, hr]
    · rw [if_neg ha]
      have ha2 : (a.id == sid) = false := by simpa using ha
      simp only [List.find?_cons, ha2] at h ⊢
      exact ih h

lemma complete_ok_sales (revenue sid : Nat) (st st2 : SysState)
    (h : complete revenue st sid = Except.ok st2) :
    ∃ sale, findSale st sid = some sale ∧ sale.status = SaleStatus.PENDING
      ∧ st2.sales = st.sales.map (fun s => if s.id == sid then
          { sale with status := SaleStatus.COMPLETED } else s) := by
  cases hfind : findSale st sid with
  | none => simp [complete, hfind] at h
  | some sale =>
    by_cases hst : sale.status = SaleStatus.PENDING
    · by_cases hni : saleItems st sid = []
      · simp [complete, hfind, hst, hni] at h
      · cases hce : checkAndEmit st sale st.next_id (saleItems st sid) with
        | error e => simp [complete, hfind, hst, hni, hce] at h
        | ok ms =>
          refine ⟨sale, rfl, hst, ?_⟩
          have hns : ¬ (sale.status ≠ SaleStatus.PENDING) := by simp [hst]
          unfold complete at h
          simp only [hfind] at h
          rw [if_neg hns, if_neg hni] at h
          simp only [hce] at h
          have h2 := Except.ok.inj h
          rw [← h2]
    · simp [complete, hfind, hst] at h

/-- C4: a second complete on an already completed sale is rejected with
InvalidStateError and commits nothing: the observed state still carries
exactly the movements and ledger entries the first, successful call
produced. -/
theorem complete_twice_rejected (revenue revenue2 sid : Nat) (st st2 : SysState)
    (h : complete revenue st sid = Except.ok st2) :
    complete revenue2 st2 sid = Except.error Err.InvalidStateError
      ∧ runComplete revenue2 st2 sid = st2
      ∧ (runComplete revenue2 st2 sid).movements = st2.movements
      ∧ (runComplete revenue2 st2 sid).entries = st2.entries
      ∧ saleStatus st2 sid = some SaleStatus.COMPLETED := by
  obtain ⟨sale, hfind, hpend, hsales⟩ := complete_ok_sales revenue sid st st2 h
  have hfind' : st.sales.find? (fun s => s.id == sid) = some sale := hfind
  have hsid0 := List.find?_some hfind'
  have hsid : (sale.id == sid) = true := hsid0
  have hfind2 : findSale st2 sid = some { sale with status := SaleStatus.COMPLETED } := by
    unfold findSale
    rw [hsales]
    exact find?_replace st.sales sid _ sale hfind' hsid
  have hc : complete revenue2 st2 sid = Except.error Err.InvalidStateError := by
    simp [complete, hfind2]
  have hr : runComplete revenue2 st2 sid = st2 := by
    unfold runComplete
    rw [hc]
  refine ⟨hc, hr, ?_, ?_, ?_⟩ <;> try rw [hr]
  simp [saleStatus, hfind2]

/-- An item demanding 4.000 units, within the 10.000 in stock. -/
def demoItemOK : SaleItem :=
  { id := 6, sale := 5, product := 1, quantity := 4000,
    unit_price := 25000, line_total := 100000 }

/-- A pending sale that can complete: product 1 has +10.000 units in
warehouse 2; the sale's single item asks for 4.000. -/
def demoPendState : SysState :=
  { products := [demoProduct], sales := [demoSale], items := [demoItemOK],
    payments := [], movements := [demoMov1], entries := [], audits := [],
    next_id := 20 }

/-- Witness for C4: after the first successful completion of the demo sale,
the second attempt is rejected with InvalidStateError. -/
theorem complete_twice_rejected_witness :
    complete 7 (runComplete 7 demoPendState 5) 5
      = Except.error Err.InvalidStateError :=
  (complete_twice_rejected 7 7 5 demoPendState (runComplete 7 demoPendState 5)
    (by rfl)).1

lemma addItem_ok_shape (st st2 : SysState) (sid pid : Nat) (qty : Int)
    (h : addItem st sid pid qty = Except.ok st2) :
    ∃ prod, findProduct st pid = some prod
      ∧ st2.items = newSaleItem st.next_id sid prod qty :: st.items
      ∧ st2.next_id = st.next_id + 1 := by
  unfold addItem at h
  cases hs : findSale st sid with
  | none => simp [hs] at h
  | some sale =>
    cases hp : findProduct st pid with
    | none => simp [hs, hp] at h
    | some prod =>
      simp only [hs, hp] at h
      by_cases h1 : sale.status ≠ SaleStatus.PENDING
      · rw [if_pos h1] at h
        simp at h
      · rw [if_neg h1] at h
        by_cases h2 : qty ≤ 0
        · rw [if_pos h2] at h
          simp at h
        · rw [if_neg h2] at h
          have h3 := Except.ok.inj h
          exact ⟨prod, rfl, by rw [← h3], by rw [← h3]⟩

lemma complete_ok_items (revenue sid : Nat) (st st2 : SysState)
    (h : complete revenue st sid = Except.ok st2) :
    st2.items = st.items ∧ st.next_id ≤ st2.next_id := by
  cases hfind : findSale st sid with
  | none => simp [complete, hfind] at h
  | some sale =>
    by_cases hst : sale.status = SaleStatus.PENDING
    · by_cases hni : saleItems st sid = []
      · simp [complete, hfind, hst, hni] at h
      · cases hce : checkAndEmit st sale st.next_id (saleItems st sid) with
        | error e => simp [complete, hfind, hst, hni, hce] at h
        | ok ms =>
          have hns : ¬ (sale.status ≠ SaleStatus.PENDING) := by simp [hst]
          unfold complete at h
          simp only [hfind] at h
          rw [if_neg hns, if_neg hni] at h
          simp only [hce] at h
          have h2 := Except.ok.inj h
          refine ⟨by rw [← h2], ?_⟩
          rw [← h2]
          show st.next_id ≤ st.next_id + ms.length + 2
          omega
    · simp [complete, hfind, hst] at h

lemma voidSale_ok_items (sid : Nat) (st st2 : SysState)
    (h : voidSale st sid = Except.ok st2) :
    st2.items = st.items ∧ st.next_id ≤ st2.next_id := by
  unfold voidSale at h
  cases hfind : findSale st sid with
  | none => simp [hfind] at h
  | some sale =>
    simp only [hfind] at h
    by_cases hst : sale.status ≠ SaleStatus.PENDING
    · rw [if_pos hst] at h
      simp at h
    · rw [if_neg hst] at h
      have h2 := Except.ok.inj h
      refine ⟨by rw [← h2], ?_⟩
      rw [← h2]
      show st.next_id ≤ st.next_id + 1
      omega

lemma refundSale_ok_items (revenue sid : Nat) (st st2 : SysState)
    (h : refundSale revenue st sid = Except.ok st2) :
    st2.items = st.items ∧ st.next_id ≤ st2.next_id := by
  unfold refundSale at h
  cases hfind : findSale st sid with
  | none => simp [hfind] at h
  | some sale =>
    simp only [hfind] at h
    by_cases hst : sale.status ≠ SaleStatus.COMPLETED
    · rw [if_pos hst] at h
      simp at h
    · rw [if_neg hst] at h
      have h2 := Except.ok.inj h
      refine ⟨by rw [← h2], ?_⟩
      rw [← h2]
      show st.next_id ≤ st.next_id + (saleItems st sid).length + 2
      omega

lemma recordPayment_ok_items (sid : Nat) (m : PaymentMethod) (a : Int)
    (r : Option String) (u : Nat) (st st2 : SysState)
    (h : recordPayment st sid m a r u = Except.ok st2) :
    st2.items = st.items ∧ st.next_id ≤ st2.next_id := by
  unfold recordPayment at h
  cases hfind : findSale st sid with
  | none => simp [hfind] at h
  | some sale =>
    simp only [hfind] at h
    by_cases h1 : a ≤ 0
    · rw [if_pos h1] at h
      simp at h
    · rw [if_neg h1] at h
      by_cases h2 : sale.status = SaleStatus.VOIDED
      · rw [if_pos h2] at h
        simp at h
      · rw [if_neg h2] at h
        by_cases h3 : paymentRefTaken st.payments r = true
        · rw [if_pos h3] at h
          simp at h
        · rw [if_neg h3] at h
          have h4 := Except.ok.inj h
          refine ⟨by rw [← h4], ?_⟩
          rw [← h4]
          show st.next_id ≤ st.next_id + 1
          omega

lemma adminDeleteItem_shape (st : SysState) (iid : Nat) :
    (adminDeleteItem st iid).next_id = st.next_id
      ∧ ∀ it2 ∈ (adminDeleteItem st iid).items, it2 ∈ st.items := by
  unfold adminDeleteItem
  split
  · exact ⟨rfl, fun it2 h2 => h2⟩
  · split
    · exact ⟨rfl, fun it2 h2 => h2⟩
    · exact ⟨rfl, fun it2 h2 => List.mem_of_mem_filter h2⟩

lemma step_items (st : SysState) (op : WOp) :
    st.next_id ≤ (step st op).next_id
      ∧ ∀ it2 ∈ (step st op).items, it2 ∈ st.items ∨ st.next_id ≤ it2.id := by
  cases op with
  | addItemOp sid pid qty =>
    cases ha : addItem st sid pid qty with
    | error e =>
      simp only [step, ha, applyE]
      exact ⟨Nat.le_refl _, fun it2 h2 => Or.inl h2⟩
    | ok st2 =>
      obtain ⟨prod, hp, hitems, hnid⟩ := addItem_ok_shape st st2 sid pid qty ha
      simp only [step, ha, applyE]
      refine ⟨by omega, ?_⟩
      intro it2 h2
      rw [hitems] at h2
      rcases List.mem_cons.mp h2 with heq | hmem
      · right
        rw [heq]
        exact Nat.le_refl _
      · exact Or.inl hmem
  | recordPaymentOp sid m a r u =>
    cases ha : recordPayment st sid m a r u with
    | error e =>
      simp only [step, ha, applyE]
      exact ⟨Nat.le_refl _, fun it2 h2 => Or.inl h2⟩
    | ok st2 =>
      obtain ⟨hitems, hnid⟩ := recordPayment_ok_items sid m a r u st st2 ha
      simp only [step, ha, applyE]
      rw [hitems]
      exact ⟨hnid, fun it2 h2 => Or.inl h2⟩
  | completeOp revenue sid =>
    cases ha : complete revenue st sid with
    | error e =>
      simp only [step, ha, applyE]
      exact ⟨Nat.le_refl _, fun it2 h2 => Or.inl h2⟩
    | ok st2 =>
      obtain ⟨hitems, hnid⟩ := complete_ok_items revenue sid st st2 ha
      simp only [step, ha, applyE]
      rw [hitems]
      exact ⟨hnid, fun it2 h2 => Or.inl h2⟩
  | voidOp sid =>
    cases ha : voidSale st sid with
    | error e =>
      simp only [step, ha, applyE]
      exact ⟨Nat.le_refl _, fun it2 h2 => Or.inl h2⟩
    | ok st2 =>
      obtain ⟨hitems, hnid⟩ := voidSale_ok_items sid st st2 ha
      simp only [step, ha, applyE]
      rw [hitems]
      exact ⟨hnid, fun it2 h2 => Or.inl h2⟩
  | refundOp revenue sid =>
    cases ha : refundSale revenue st sid with
    | error e =>
      simp only [step, ha, applyE]
      exact ⟨Nat.le_refl _, fun it2 h2 => Or.inl h2⟩
    | ok st2 =>
      obtain ⟨hitems, hnid⟩ := refundSale_ok_items revenue sid st st2 ha
      simp only [step, ha, applyE]
      rw [hitems]
      exact ⟨hnid, fun it2 h2 => Or.inl h2⟩
  | updatePriceOp pid price =>
    exact ⟨Nat.le_refl _, fun it2 h2 => Or.inl h2⟩
  | adminDeleteItemOp iid =>
    obtain ⟨h1, h2⟩ := adminDeleteItem_shape st iid
    exact ⟨le_of_eq h1.symm, fun it2 hm => Or.inl (h2 it2 hm)⟩

lemma applyOps_items (ops : List WOp) (st : SysState) :
    st.next_id ≤ (applyOps st ops).next_id
      ∧ ∀ it2 ∈ (applyOps st ops).items, it2 ∈ st.items ∨ st.next_id ≤ it2.id := by
  induction ops generalizing st with
  | nil => exact ⟨Nat.le_refl _, fun it2 h2 => Or.inl h2⟩
  | cons op rest ih =>
    obtain ⟨h1, h2⟩ := step_items st op
    obtain ⟨ih1, ih2⟩ := ih (step st op)
    refine ⟨le_trans h1 ih1, ?_⟩
    intro it2 hit2
    rcases ih2 it2 hit2 with hmem | hge
    · rcases h2 it2 hmem with hmem2 | hge2
      · exact Or.inl hmem2
      · exact Or.inr hge2
    · exact Or.inr (le_trans h1 hge)

/-- C5: an item of a sale that has reached COMPLETED is frozen: after any
sequence of workflow and interface operations, any item still carrying its
id is that very item, so its unit_price (and every other field) never
changes — in particular a later catalog update of the referenced product's
unit_price cannot touch it; and the price on a freshly added item is a copy
of the product's price at the moment of addition, not a live reference. -/
theorem saleitem_price_frozen (ops : List WOp) (st : SysState) (it : SaleItem)
    (hit : it ∈ st.items) (hid : it.id < st.next_id)
    (huniq : ∀ it2 ∈ st.items, it2.id = it.id → it2 = it)
    (hdone : saleStatus st it.sale = some SaleStatus.COMPLETED) :
    (∀ it2 ∈ (applyOps st ops).items, it2.id = it.id → it2 = it)
      ∧ (∀ st3 st4 : SysState, ∀ sid2 pid2 : Nat, ∀ qty2 : Int,
          addItem st3 sid2 pid2 qty2 = Except.ok st4 →
          ∀ it2 ∈ st4.items, it2 ∈ st3.items
            ∨ ∃ prod, findProduct st3 pid2 = some prod
                ∧ it2.unit_price = prod.unit_price ∧ it2.product = prod.id) := by
  constructor
  · intro it2 hit2 hideq
    rcases (applyOps_items ops st).2 it2 hit2 with hmem | hge
    · exact huniq it2 hmem hideq
    · exact absurd hideq (by omega)
  · intro st3 st4 sid2 pid2 qty2 hadd it2 hit2
    obtain ⟨prod, hp, hitems, _⟩ := addItem_ok_shape st3 st4 sid2 pid2 qty2 hadd
    rw [hitems] at hit2
    rcases List.mem_cons.mp hit2 with heq | hmem
    · right
      refine ⟨prod, hp, ?_, ?_⟩
      · rw [heq]
        rfl
      · rw [heq]
        rfl
    · exact Or.inl hmem

/-- The frozen item as it reads after the catalog price update: unit_price
still 25000 (the copy taken at addition), although product 1 now sells at
99999. -/
def demoPostItem : SaleItem :=
  { id := 6, sale := 5, product := 1, quantity := 4000,
    unit_price := 25000, line_total := 100000 }

/-- Witness for C5: complete the demo sale, then raise the product's price;
the item carrying id 6 in the resulting state is still the original item. -/
theorem saleitem_price_frozen_witness :
    demoPostItem = demoItemOK :=
  (saleitem_price_frozen [WOp.updatePriceOp 1 99999]
    (runComplete 7 demoPendState 5) demoItemOK (by decide) (by decide)
    (by decide) (by decide)).1 demoPostItem (by decide) (by decide)

/-- Effective request validation of SaleItemCreateSerializer
(src/sales/serializers.py) for the quantity field: only the model-derived
DecimalField(max_digits=15, decimal_places=3) bounds apply.  The
validate_quantity method in the source is nested inside class Meta, so the
framework's validate_(field) lookup on the serializer instance never finds
it and no positivity check runs.  (The product field is assumed resolvable;
FK checks are outside the embedding.) -/
def saleItemCreateRunValidation (quantity : Int) : Except Err Int :=
  if decimalInRange 15 quantity = true then .ok quantity
  else .error .ValidationError

/-- The dead validator's body as written in the source (nested inside Meta,
src/sales/serializers.py): reject a quantity that is not strictly
positive. -/
def validate_quantity (value : Int) : Except Err Int :=
  if value ≤ 0 then .error .ValidationError else .ok value

/-- C8 (code bug): the claim matches the intended check — the nested
validate_quantity body and spec section 4.3 both demand quantity > 0 — but
the serializer as written runs no positivity check: quantity 0 and quantity
-5.000 pass validation and an item would be created, although the dead
validator would have rejected exactly those inputs; an in-range strictly
positive quantity passes either way. -/
theorem saleItemCreate_dead_validator :
    saleItemCreateRunValidation 0 = Except.ok 0
      ∧ saleItemCreateRunValidation (-5000) = Except.ok (-5000)
      ∧ validate_quantity 0 = Except.error Err.ValidationError
      ∧ validate_quantity (-5000) = Except.error Err.ValidationError
      ∧ saleItemCreateRunValidation 4000 = Except.ok 4000 :=
  ⟨rfl, rfl, rfl, rfl, rfl⟩

/-- Declared DecimalField ranges of the Sale money totals
(src/sales/models.py): subtotal has max_digits=5 with decimal_places=2 (so
at most 999.99 in absolute value), while tax_total, discount_total and
grand_total have max_digits=15. -/
def saleTotalsInRange (s : Sale) : Bool :=
  decimalInRange 5 s.subtotal && decimalInRange 15 s.tax_total
    && decimalInRange 15 s.discount_total && decimalInRange 15 s.grand_total

/-- C10: a Sale whose totals respect the declared column ranges cannot store
a subtotal equal to a line-total recomputation of 1000.00 (= 100000 cents)
or more: the subtotal column caps at 999.99, while the 15-digit columns (and
in particular grand_total) do admit 1000.00. -/
theorem sale_subtotal_range (s : Sale) (lineTotals : List Int)
    (hs : saleTotalsInRange s = true) (hsum : 100000 ≤ lineTotals.sum) :
    s.subtotal ≠ lineTotals.sum
      ∧ decimalInRange 5 99999 = true
      ∧ decimalInRange 5 100000 = false
      ∧ decimalInRange 15 100000 = true := by
  refine ⟨?_, by decide, by decide, by decide⟩
  have hb : s.subtotal.natAbs < 100000 := by
    simp [saleTotalsInRange, decimalInRange] at hs
    exact hs.1.1.1
  intro heq
  omega

/-- A sale whose denormalized totals are all in range; its subtotal holds
the column maximum 999.99. -/
def demoBigSale : Sale :=
  { id := 8, sale_number := 2, warehouse := 2, sold_by := 9,
    status := .PENDING, subtotal := 99999, tax_total := 0,
    discount_total := 0, grand_total := 150000 }

/-- Witness for C10: line totals 600.00 + 900.00 sum to 1500.00; the stored
subtotal cannot equal that sum. -/
theorem sale_subtotal_range_witness :
    demoBigSale.subtotal ≠ ([60000, 90000] : List Int).sum :=
  (sale_subtotal_range demoBigSale [60000, 90000] (by decide) (by decide)).1

end HMS
